import Mathlib

/-!
Shallow embedding of the RAG damage-estimation pipeline
(`src/services/rag_service.py` and the merge entry point of
`src/services/vehicle_damage_service.py`) together with the data model of
`src/models/rag_models.py` / `src/models/vehicle_damage.py`.

External collaborators (the vision/language inference endpoint, the S3
fetcher/lister, the Qdrant index) are parameters of the embedded
functions; everything the repository itself computes is translated
directly from the Python source.  Python dicts that preserve insertion
order are modelled as association lists; dynamically typed JSON-ish
values are modelled by the `PyVal` inductive with explicit Python
semantics for `get`, iteration, truthiness, `lower` and `str`.
-/

/-- Dynamically typed Python/JSON value, as handled by the catalog
indexer (`_extract_pss_parts`). -/
inductive PyVal where
  | str : String → PyVal
  | int : Int → PyVal
  | bool : Bool → PyVal
  | none : PyVal
  | list : List PyVal → PyVal
  | dict : List (String × PyVal) → PyVal

/-- First-match association-list lookup: Python `d[k]` / `d.get(k)` read
on an insertion-ordered dict (keys are unique in a real dict, so first
match is the match). -/
def alookup {α : Type} : List (String × α) → String → Option α
  | [], _ => Option.none
  | (k', v) :: r, k => if k' = k then some v else alookup r k

/-- Python dict assignment `d[k] = v`: overwrite in place if the key
exists, otherwise append (insertion order). -/
def dictSet {α : Type} (m : List (String × α)) (k : String) (v : α) : List (String × α) :=
  if m.any (fun p => p.1 = k) then
    m.map (fun p => if p.1 = k then (k, v) else p)
  else
    m ++ [(k, v)]

/-- Python `s.lower()` (ASCII case mapping), structurally over the
character list. -/
def pyLowerStr (s : String) : String :=
  String.mk (s.data.map Char.toLower)

/-- Drop leading whitespace characters. -/
def dropWsLead : List Char → List Char
  | [] => []
  | c :: t => if c.isWhitespace then dropWsLead t else c :: t

/-- Python `s.strip()`: drop leading and trailing whitespace. -/
def pyStrip (s : String) : String :=
  String.mk ((dropWsLead (dropWsLead s.data).reverse).reverse)

/-- Accumulating tokenizer behind `pyTokens`: `cur` holds the characters
of the token being read, in reverse. -/
def pyTokensChars (cur : List Char) : List Char → List String
  | [] => if cur.isEmpty then [] else [String.mk cur.reverse]
  | c :: t =>
    if c.isWhitespace then
      if cur.isEmpty then pyTokensChars [] t
      else String.mk cur.reverse :: pyTokensChars [] t
    else pyTokensChars (c :: cur) t

/-- Python truthiness of a `PyVal` (`if not x: ...`). -/
def pyTruthy : PyVal → Bool
  | .str s => s ≠ ""
  | .int n => n ≠ 0
  | .bool b => b
  | .none => false
  | .list l => ¬ l.isEmpty
  | .dict d => ¬ d.isEmpty

/-- Python `x.get(key, default)`: succeeds only on a dict, raises
(`AttributeError`) on anything else. -/
def pyGet (v : PyVal) (key : String) (default : PyVal) : Except String PyVal :=
  match v with
  | .dict d => .ok ((alookup d key).getD default)
  | _ => .error "AttributeError: object has no attribute get"

/-- Python `for x in v`: lists yield elements, strings yield one-character
strings, dicts yield their keys; other values raise `TypeError`. -/
def pyIter (v : PyVal) : Except String (List PyVal) :=
  match v with
  | .list l => .ok l
  | .str s => .ok (s.toList.map (fun c => PyVal.str (String.singleton c)))
  | .dict d => .ok (d.map (fun p => PyVal.str p.1))
  | _ => .error "TypeError: object is not iterable"

/-- Python `x.lower()`: only strings have it. -/
def pyLower (v : PyVal) : Except String String :=
  match v with
  | .str s => .ok (pyLowerStr s)
  | _ => .error "AttributeError: object has no attribute lower"

/-- Python `str(x)` (for structured values a bracketed rendering; the
code only ever applies it to truthy scalar ids). -/
def pyStr : PyVal → String
  | .str s => s
  | .int n => toString n
  | .bool b => if b then "True" else "False"
  | .none => "None"
  | .list l => "[" ++ String.intercalate ", " (pyStrList l) ++ "]"
  | .dict d => "\x7b" ++ String.intercalate ", " (pyStrDict d) ++ "\x7d"
where
  pyStrList : List PyVal → List String
    | [] => []
    | x :: xs => pyStr x :: pyStrList xs
  pyStrDict : List (String × PyVal) → List String
    | [] => []
    | (k, v) :: xs => (k ++ ": " ++ pyStr v) :: pyStrDict xs

/-- One value of the lookup map built by `_extract_pss_parts`
(`{"id": ..., "full_description": ..., "description": ...,
"available_operations": ...}`). -/
structure PartInfo where
  id : String
  full_description : PyVal
  description : PyVal
  available_operations : PyVal

/-- The Catalog Indexer's lookup structure: an insertion-ordered map from
lower-cased part text to `PartInfo`. -/
def PartsMap : Type := List (String × PartInfo)

/-- Traversal outcome of the indexer: the map accumulated so far plus a
flag, `true` while no exception has been raised.  The `except` clause of
`_extract_pss_parts` catches everything, so an exception only stops the
traversal; the partial map is still returned. -/
def ExtractRes : Type := PartsMap × Bool

/-- Body of the innermost loop of `_extract_pss_parts`: one `detail` of
`part["PartDetails"]`.  Both map insertions of the Python source,
including every sub-expression that can raise on malformed data. -/
def processDetail (acc : PartsMap) (detail : PyVal) : ExtractRes :=
  match pyGet detail "FullDescription" (.str "") with
  | .error _ => (acc, false)
  | .ok full_desc =>
  match pyGet detail "Id" (.str "") with
  | .error _ => (acc, false)
  | .ok part_id =>
  -- first insertion: keyed by FullDescription.lower()
  match
    (if pyTruthy full_desc && pyTruthy part_id then
      match pyGet detail "Part" (.dict []) with
      | .error e => .error e
      | .ok partv =>
      match pyGet partv "Description" (.str "") with
      | .error e => .error e
      | .ok descv =>
      match pyGet detail "AvailableOperations" (.list []) with
      | .error e => .error e
      | .ok avail =>
      match pyLower full_desc with
      | .error e => .error e
      | .ok fdl =>
        .ok (dictSet acc fdl
          { id := pyStr part_id
            full_description := full_desc
            description := descv
            available_operations := avail })
    else .ok acc : Except String PartsMap)
  with
  | .error _ => (acc, false)
  | .ok acc1 =>
  -- second insertion: keyed by Part.Description.lower(), first occurrence wins
  match pyGet detail "Part" (.dict []) with
  | .error _ => (acc1, false)
  | .ok partv =>
  match pyGet partv "Description" (.str "") with
  | .error _ => (acc1, false)
  | .ok part_desc =>
  if pyTruthy part_desc && pyTruthy part_id then
    match pyLower part_desc with
    | .error _ => (acc1, false)
    | .ok pdl =>
      if (alookup acc1 pdl).isSome then (acc1, true)
      else
        match pyGet detail "AvailableOperations" (.list []) with
        | .error _ => (acc1, false)
        | .ok avail =>
          (dictSet acc1 pdl
            { id := pyStr part_id
              full_description := full_desc
              description := part_desc
              available_operations := avail }, true)
  else (acc1, true)

/-- `for detail in part_details:` — abort the fold at the first raised
exception. -/
def foldDetails (acc : PartsMap) : List PyVal → ExtractRes
  | [] => (acc, true)
  | d :: ds =>
    match processDetail acc d with
    | (m, false) => (m, false)
    | (m, true) => foldDetails m ds

/-- One `part` of `subcategory["Parts"]`. -/
def processPart (acc : PartsMap) (part : PyVal) : ExtractRes :=
  match pyGet part "PartDetails" (.list []) with
  | .error _ => (acc, false)
  | .ok v =>
  match pyIter v with
  | .error _ => (acc, false)
  | .ok items => foldDetails acc items

/-- `for part in parts:`. -/
def foldParts (acc : PartsMap) : List PyVal → ExtractRes
  | [] => (acc, true)
  | p :: ps =>
    match processPart acc p with
    | (m, false) => (m, false)
    | (m, true) => foldParts m ps

/-- One `subcategory` of `category["SubCategories"]`. -/
def processSubcat (acc : PartsMap) (subcat : PyVal) : ExtractRes :=
  match pyGet subcat "Parts" (.list []) with
  | .error _ => (acc, false)
  | .ok v =>
  match pyIter v with
  | .error _ => (acc, false)
  | .ok items => foldParts acc items

/-- `for subcategory in subcategories:`. -/
def foldSubcats (acc : PartsMap) : List PyVal → ExtractRes
  | [] => (acc, true)
  | s :: ss =>
    match processSubcat acc s with
    | (m, false) => (m, false)
    | (m, true) => foldSubcats m ss

/-- One `category` of `pss_data["Categories"]`. -/
def processCategory (acc : PartsMap) (cat : PyVal) : ExtractRes :=
  match pyGet cat "SubCategories" (.list []) with
  | .error _ => (acc, false)
  | .ok v =>
  match pyIter v with
  | .error _ => (acc, false)
  | .ok items => foldSubcats acc items

/-- `for category in categories:`. -/
def foldCats (acc : PartsMap) : List PyVal → ExtractRes
  | [] => (acc, true)
  | c :: cs =>
    match processCategory acc c with
    | (m, false) => (m, false)
    | (m, true) => foldCats m cs

/-- `RAGService._extract_pss_parts`: flatten the hierarchical PSS catalog
document into the lookup map; the enclosing `try/except` returns the map
accumulated so far when any entry raises. -/
def extractPssParts (pss_data : Option PyVal) : PartsMap :=
  match pss_data with
  | Option.none => []
  | some v =>
    if ¬ pyTruthy v then []
    else
      (match pyGet v "Categories" (.list []) with
       | .error _ => (([] : PartsMap), false)
       | .ok cats =>
         match pyIter cats with
         | .error _ => (([] : PartsMap), false)
         | .ok items => foldCats [] items).1

/-- Whitespace tokenization, Python `s.split()` (runs of whitespace,
no empty tokens). -/
def pyTokens (s : String) : List String :=
  pyTokensChars [] s.data

/-- `len(set(a.split()) & set(b.split()))`: number of distinct shared
whitespace tokens. -/
def overlapCount (a b : String) : Nat :=
  ((pyTokens a).dedup.filter (fun t => t ∈ pyTokens b)).length

/-- Does the character list `n` occur at the start of `h`? -/
def charsStart : List Char → List Char → Bool
  | [], _ => true
  | _ :: _, [] => false
  | a :: as, b :: bs => a = b && charsStart as bs

/-- Does the character list `n` occur anywhere inside `h`? -/
def charsSub (n : List Char) (h : List Char) : Bool :=
  charsStart n h ||
    match h with
    | [] => false
    | _ :: t => charsSub n t

/-- Python substring test `a in b` on strings. -/
def strSub (a b : String) : Bool :=
  charsSub a.toList b.toList

/-- The per-key scan of `_match_part_with_pss`: for each key, in map
insertion order, first the token-overlap test (≥ 2 shared tokens), then
the two-way substring test; the first key passing either wins. -/
def scanPss (part_lower : String) : List (String × PartInfo) → Option String
  | [] => Option.none
  | (pss_desc, info) :: rest =>
    if overlapCount pss_desc part_lower ≥ 2 then some info.id
    else if strSub part_lower pss_desc || strSub pss_desc part_lower then some info.id
    else scanPss part_lower rest

/-- `RAGService._match_part_with_pss`: exact match on the lower-cased,
trimmed description first, then the per-key scan. -/
def matchPartWithPss (part_description : String) (pss_parts_map : PartsMap) : Option String :=
  if part_description = "" || pss_parts_map.isEmpty then Option.none
  else
    let part_lower := pyStrip (pyLowerStr part_description)
    match alookup pss_parts_map part_lower with
    | some info => some info.id
    | Option.none => scanPss part_lower pss_parts_map

/-- `models/vehicle_damage.py` `DamageDescription`. -/
structure DamageDescription where
  location : String
  part : String
  severity : String
  type : String
  start_position : String
  end_position : String
  description : String
deriving DecidableEq

/-- `models/vehicle_damage.py` `VehicleInfo`. -/
structure VehicleInfo where
  vin : String
  make : String
  model : String
  year : Int
  body_type : String
deriving DecidableEq

/-- `damages_by_part` update in `_merge_damage_descriptions`:
`if part not in d: d[part] = []` followed by `d[part].append(damage)`. -/
def dictPush (m : List (String × List DamageDescription)) (k : String)
    (d : DamageDescription) : List (String × List DamageDescription) :=
  if (alookup m k).isSome then
    m.map (fun p => if p.1 = k then (p.1, p.2 ++ [d]) else p)
  else
    m ++ [(k, [d])]

/-- The grouping loop of `_merge_damage_descriptions`: damages grouped by
`part` in an insertion-ordered dict. -/
def damagesByPart (damages : List DamageDescription) : List (String × List DamageDescription) :=
  damages.foldl (fun m d => dictPush m d.part d) []

/-- `"Major" if "Major" in severities else ("Medium" if "Medium" in
severities else "Minor")`. -/
def maxSeverity (severities : List String) : String :=
  if "Major" ∈ severities then "Major"
  else if "Medium" ∈ severities then "Medium"
  else "Minor"

/-- Worst severity of one part group. -/
def groupSeverity (ds : List DamageDescription) : String :=
  maxSeverity (ds.map (fun d => d.severity))

/-- `list(set(d.type for d in part_damages))`.  Python's set iteration
order is unspecified; the embedding determinizes it as first-occurrence
dedup — the theorems about group contents compare membership only. -/
def groupTypes (ds : List DamageDescription) : List String :=
  (ds.map (fun d => d.type)).dedup

/-- `RAGService._merge_damage_descriptions`: group findings by part,
render worst severity plus deduplicated types per group, join with
`"; "`, prefix with the vehicle identification. -/
def mergeDamageDescriptions (damages : List DamageDescription)
    (vehicle_info : Option VehicleInfo) : String :=
  if damages.isEmpty then "No visible damage detected."
  else
    let groups := damagesByPart damages
    let parts := groups.map (fun p =>
      p.1 ++ " (" ++ groupSeverity p.2 ++ " " ++
        String.intercalate ", " (groupTypes p.2) ++ ")")
    let vehicle_str :=
      match vehicle_info with
      | some vi => "The " ++ toString vi.year ++ " " ++ vi.make ++ " " ++ vi.model ++ " shows "
      | Option.none => "The vehicle shows "
    vehicle_str ++ "damage to: " ++ String.intercalate "; " parts ++ "."

/-- `VehicleDamageService.merge_damage_descriptions`: on an empty finding
list it returns the sentinel before any inference call; otherwise it
delegates to the language model (`model.invoke(...).text.strip()`),
modelled by the `inferenceText` parameter. -/
def mergeDamageDescriptionsService (inferenceText : String)
    (_vehicle_info : VehicleInfo)
    (damage_descriptions : List DamageDescription) : String :=
  if damage_descriptions.isEmpty then "No visible damage detected on the vehicle."
  else pyStrip inferenceText

/-- One raw operation dict of the structured LLM estimate output
(`result.estimate[category]` elements); absent keys are `Option.none`. -/
structure RawOp where
  Description : Option String
  Operation : Option String
  LaborHours : Option ℚ
  PartId : Option String
deriving DecidableEq

/-- Raw structured output `EstimateOutput.estimate`: operations grouped
by category, insertion-ordered. -/
def RawEstimate : Type := List (String × List RawOp)

/-- `models/rag_models.py` `EstimateOperation` after post-processing:
`PartId` is the final string (empty when unresolved). -/
structure EstimateOperation where
  Description : String
  Operation : String
  LaborHours : Option ℚ
  PartId : String
deriving DecidableEq

/-- `models/rag_models.py` `GeneratedEstimate`. -/
structure GeneratedEstimate where
  estimate : List (String × List EstimateOperation)
deriving DecidableEq

/-- Per-operation post-processing of `generate_estimate`: drop
`LaborHours` unless the raw `Operation` is `"Repair"`; resolve `PartId`
via the Part Matcher on the description, then on the category name;
finalize as a string (`str(part_id or '')`). -/
def processOp (pss_parts_map : PartsMap) (category : String) (op : RawOp) : EstimateOperation :=
  let labor_hours := if op.Operation = some "Repair" then op.LaborHours else Option.none
  let part_id0 := op.PartId.getD ""
  let part_description := op.Description.getD ""
  let part_id : Option String :=
    if part_id0 = "" then
      match matchPartWithPss part_description pss_parts_map with
      | some i => some i
      | Option.none => matchPartWithPss category pss_parts_map
    else some part_id0
  { Description := op.Description.getD "Unknown"
    Operation := op.Operation.getD "Unknown"
    LaborHours := labor_hours
    PartId := part_id.getD "" }

/-- `RAGService.generate_estimate` after the single inference call
(`invokeResult` is that call's outcome; prompt construction feeds only
the external model): on inference failure an empty estimate, otherwise
the per-operation post-processing over the extracted PSS map. -/
def generateEstimate (invokeResult : Except String RawEstimate)
    (pss_data : Option PyVal) : GeneratedEstimate :=
  match invokeResult with
  | .error _ => ⟨[]⟩
  | .ok raw =>
    let pss_parts_map := extractPssParts pss_data
    ⟨raw.map (fun ce => (ce.1, ce.2.map (processOp pss_parts_map ce.1)))⟩

/-- `models/rag_models.py` `DamageDetectionResult` (confidence as ℚ). -/
structure DamageDetectionResult where
  image_url : String
  has_damage : Bool
  side : String
  damages : List DamageDescription
  confidence : ℚ
deriving DecidableEq

/-- `models/rag_models.py` `DamageDetectionResponse`
(`processing_time_seconds` is wall-clock time, outside the embedding). -/
structure DamageDetectionResponse where
  success : Bool
  total_images : Nat
  images_with_damage : Nat
  detections : List DamageDetectionResult
  merged_damage_description : String
  error : Option String
deriving DecidableEq

/-- The sentinel result substituted by `_detect_damage_worker` when the
fetch or the analysis of one image raises. -/
def sentinelResult (s3_url : String) : DamageDetectionResult :=
  { image_url := s3_url
    has_damage := false
    side := "unknown"
    damages := []
    confidence := 0 }

/-- `RAGService._detect_damage_worker`: `analyze` is the fetch plus the
single-image inference (`s3_service.get_image` +
`detect_damage_single_image`), both external and fallible; any raised
error becomes the sentinel. -/
def detectDamageWorker (analyze : String → Except String DamageDetectionResult)
    (s3_url : String) : DamageDetectionResult :=
  match analyze s3_url with
  | .ok r => r
  | .error _ => sentinelResult s3_url

/-- Python truthiness of an optional string (`if bucket_url:`). -/
def truthyOptStr : Option String → Bool
  | some s => s ≠ ""
  | Option.none => false

/-- Python truthiness of an optional list (`if image_urls:`). -/
def truthyOptList {α : Type} : Option (List α) → Bool
  | some l => ¬ l.isEmpty
  | Option.none => false

/-- The fan-out / fan-in part of `detect_damage_batch` once the URL list
is resolved.  One worker task is submitted per URL; `as_completed`
yields results in completion order, modelled by `arrival`, a permutation
of the submission indices. -/
def batchRun (analyze : String → Except String DamageDetectionResult)
    (vehicle_info : Option VehicleInfo)
    (all_image_urls : List String) (arrival : List Nat) : DamageDetectionResponse :=
  if all_image_urls.isEmpty then
    { success := false
      total_images := 0
      images_with_damage := 0
      detections := []
      merged_damage_description := ""
      error := some "No images found" }
  else
    let detections := arrival.map (fun i => detectDamageWorker analyze (all_image_urls.getD i ""))
    let images_with_damage := (detections.filter (fun d => d.has_damage)).length
    let all_damages := detections.foldl (fun acc d => acc ++ d.damages) []
    let merged := mergeDamageDescriptions all_damages vehicle_info
    { success := true
      total_images := all_image_urls.length
      images_with_damage := images_with_damage
      detections := detections
      merged_damage_description := merged
      error := Option.none }

/-- `RAGService.detect_damage_batch`: resolve the URL list (explicit list
first, else the S3 listing, else a hard error), then run the batch.
`listImages` is the external `s3_service.list_images_from_url`; a raised
listing error is caught by the outer `except`. -/
def detectDamageBatch (analyze : String → Except String DamageDetectionResult)
    (listImages : String → Except String (List String))
    (bucket_url : Option String) (image_urls : Option (List String))
    (vehicle_info : Option VehicleInfo) (arrival : List Nat) : DamageDetectionResponse :=
  if truthyOptList image_urls then
    batchRun analyze vehicle_info (image_urls.getD []) arrival
  else if truthyOptStr bucket_url then
    match listImages (bucket_url.getD "") with
    | .error e =>
      { success := false
        total_images := 0
        images_with_damage := 0
        detections := []
        merged_damage_description := ""
        error := some e }
    | .ok urls => batchRun analyze vehicle_info urls arrival
  else
    { success := false
      total_images := 0
      images_with_damage := 0
      detections := []
      merged_damage_description := ""
      error := some "Either bucket_url or image_urls must be provided" }

/-- `models/rag_models.py` `RetrievedChunk`; the map-typed payload fields
are `PyVal`s, consumed only by prompt construction. -/
structure RetrievedChunk where
  score : ℚ
  content : String
  vehicle_info : PyVal
  side : String
  damage_descriptions : List PyVal
  approved_estimate : PyVal

/-- `models/rag_models.py` `RAGEstimateRequest`, field for field.  Note
it declares `pss_url` and NO `pss_data` attribute (default pydantic
extra handling, so an undeclared attribute read raises
`AttributeError`). -/
structure RAGEstimateRequest where
  vehicle_info : Option VehicleInfo
  side : Option String
  images : Option (List String)
  damage_descriptions : Option (List DamageDescription)
  merged_damage_description : Option String
  pss_url : Option String
  custom_estimate_prompt : Option String

/-- `models/rag_models.py` `RAGEstimateResponse`
(`processing_time_seconds` is wall-clock time, outside the embedding). -/
structure RAGEstimateResponse where
  success : Bool
  images_analyzed : Nat
  images_with_damage : Nat
  damage_detections : List DamageDetectionResult
  generated_estimate : Option GeneratedEstimate
  vehicle_info : Option VehicleInfo
  human_damage_description : Option String
  pss_data_used : Bool
  error : Option String

/-- The Python `str(e)` of the exception raised by the first statement
of `run_rag_pipeline`'s try block, `pss_data = request.pss_data`: the
pydantic request model declares no `pss_data` attribute. -/
def pssDataAttributeError : String :=
  "'RAGEstimateRequest' object has no attribute 'pss_data'"

/-- `RAGService.run_rag_pipeline` as the program executes it: the first
statement inside the `try`, `pss_data = request.pss_data`, reads an
attribute the pydantic `RAGEstimateRequest` does not declare, so it
raises `AttributeError` on every call; the function-level `except`
converts it to the failure response with `str(e)`.  The remainder of
the try block is dead code (embedded separately as
`runRagPipelineAfterPssRead`).  `retrieve` and `invokeEstimate` are the
external retrieval and inference collaborators; neither is reached. -/
def runRagPipeline (_retrieve : String → List RetrievedChunk)
    (_invokeEstimate : List RetrievedChunk → Except String RawEstimate)
    (_req : RAGEstimateRequest) : RAGEstimateResponse :=
  { success := false
    images_analyzed := 0
    images_with_damage := 0
    damage_detections := []
    generated_estimate := Option.none
    vehicle_info := Option.none
    human_damage_description := Option.none
    pss_data_used := false
    error := some pssDataAttributeError }

/-- The remainder of `run_rag_pipeline`'s try block (everything after
the `pss_data = request.pss_data` read), parameterized by the value
that read would have produced.  In the program this code is
UNREACHABLE — the read always raises — but it is the code the spec
describes, so it is embedded on its own to state what it would do. -/
def runRagPipelineAfterPssRead (pss_data : Option PyVal)
    (retrieve : String → List RetrievedChunk)
    (invokeEstimate : List RetrievedChunk → Except String RawEstimate)
    (req : RAGEstimateRequest) : RAGEstimateResponse :=
  let all_damages := req.damage_descriptions.getD []
  let search_query : Option String :=
    if ¬ truthyOptStr req.merged_damage_description ∧ ¬ all_damages.isEmpty then
      some (mergeDamageDescriptions all_damages req.vehicle_info)
    else req.merged_damage_description
  if ¬ truthyOptStr search_query then
    { success := false
      images_analyzed := 0
      images_with_damage := 0
      damage_detections := []
      generated_estimate := Option.none
      vehicle_info := Option.none
      human_damage_description := Option.none
      pss_data_used := false
      error := some "No damage description provided for retrieval" }
  else
    let retrieved_chunks := retrieve (search_query.getD "")
    let generated := generateEstimate (invokeEstimate retrieved_chunks) pss_data
    { success := true
      images_analyzed := (req.images.getD []).length
      images_with_damage := (req.images.getD []).length
      damage_detections := []
      generated_estimate := some generated
      vehicle_info := req.vehicle_info
      human_damage_description := req.merged_damage_description
      pss_data_used := pss_data.isSome
      error := Option.none }

/-- One key of the matcher scan passes when its token overlap with the
query is at least 2 or one of the two strings contains the other. -/
def keyMatches (q k : String) : Bool :=
  decide (overlapCount k q ≥ 2) || strSub q k || strSub k q

/-- The matching algorithm as the spec sentence orders it: exact match,
then a full pass looking only for token overlap over all keys, then a
separate full pass looking for substring containment.  Written from the
spec's wording, to be compared with `matchPartWithPss` (the code runs
the two tests together inside one pass). -/
def specOrderedMatch (d : String) (m : PartsMap) : Option String :=
  if d = "" || m.isEmpty then Option.none
  else
    let q := pyStrip (pyLowerStr d)
    match alookup m q with
    | some info => some info.id
    | Option.none =>
      match (m.find? (fun p => decide (overlapCount p.1 q ≥ 2))).map (fun p => p.2.id) with
      | some i => some i
      | Option.none => (m.find? (fun p => strSub q p.1 || strSub p.1 q)).map (fun p => p.2.id)

/-- Two-key catalog index: the first key contains the query as a
substring but shares no whitespace token with it; the second key shares
two tokens with the query. -/
def cexMap : PartsMap :=
  [("xfront bumpery",
    { id := "1", full_description := .str "xFront Bumpery",
      description := .str "", available_operations := .list [] }),
   ("front bumper cover",
    { id := "2", full_description := .str "Front Bumper Cover",
      description := .str "", available_operations := .list [] })]

/-- A processed operation whose raw form is a `Repair` with no
`LaborHours` supplied by the inference output. -/
def c3op : EstimateOperation :=
  processOp [] "Front Bumper"
    { Description := some "Front Bumper Cover", Operation := some "Repair",
      LaborHours := Option.none, PartId := Option.none }

/-- Single-entry catalog index used by the C7 witness. -/
def c7Map : PartsMap :=
  [("front bumper cover",
    { id := "id9", full_description := .str "Front Bumper Cover",
      description := .str "", available_operations := .list [] })]

/-- A well-formed PSS part detail. -/
def goodDetail : PyVal :=
  .dict [("FullDescription", .str "Front Bumper"), ("Id", .str "7"),
         ("Part", .dict [("Description", .str "Bumper")]),
         ("AvailableOperations", .list [])]

/-- A well-formed PSS category holding `goodDetail`. -/
def goodCat : PyVal :=
  .dict [("SubCategories",
    .list [.dict [("Parts",
      .list [.dict [("PartDetails", .list [goodDetail])]])]])]

/-- A catalog document whose first category is malformed (an integer, so
`category.get(...)` raises) and whose second category is well-formed. -/
def badDoc : PyVal := .dict [("Categories", .list [.int 5, goodCat])]

/-- The same catalog document without the malformed first category. -/
def goodDoc : PyVal := .dict [("Categories", .list [goodCat])]

/-- Analyzer stub whose fetch+inference always raises. -/
def c2Analyze : String → Except String DamageDetectionResult :=
  fun _ => .error "fetch failed"

/-- Listing stub (unused by the C2 witness: the URL list is explicit). -/
def c2List : String → Except String (List String) :=
  fun _ => .ok []

/-- Analyzer stub that always succeeds with a fixed result. -/
def c6Analyze : String → Except String DamageDetectionResult :=
  fun url => .ok (sentinelResult url)

/-- Listing stub resolving the bucket to an empty image list. -/
def c6List : String → Except String (List String) :=
  fun _ => .ok []

/-- Retrieval stub returning no similar cases. -/
def c6Retrieve : String → List RetrievedChunk := fun _ => []

/-- Estimate-inference stub returning an empty raw estimate. -/
def c6Invoke : List RetrievedChunk → Except String RawEstimate := fun _ => .ok []

/-- A pipeline request with neither a merged damage description nor any
damage findings. -/
def c6Req : RAGEstimateRequest :=
  { vehicle_info := Option.none, side := Option.none, images := Option.none,
    damage_descriptions := Option.none, merged_damage_description := Option.none,
    pss_url := Option.none, custom_estimate_prompt := Option.none }

/-- A pipeline request with a merged description and two image
references. -/
def c10Req : RAGEstimateRequest :=
  { vehicle_info := Option.none, side := Option.none,
    images := some ["img1", "img2"],
    damage_descriptions := Option.none,
    merged_damage_description := some "rear bumper dent",
    pss_url := Option.none, custom_estimate_prompt := Option.none }

/-- Retrieval stub for the C10 witness. -/
def c10Retrieve : String → List RetrievedChunk := fun _ => []

/-- Estimate-inference stub for the C10 witness. -/
def c10Invoke : List RetrievedChunk → Except String RawEstimate := fun _ => .error "outage"

/-- A minor scratch on the bumper. -/
def c5d1 : DamageDescription :=
  { location := "Front", part := "Bumper", severity := "Minor", type := "Scratch",
    start_position := "left", end_position := "center", description := "light scratch" }

/-- A major dent on the same bumper. -/
def c5d2 : DamageDescription :=
  { location := "Front", part := "Bumper", severity := "Major", type := "Dent",
    start_position := "center", end_position := "right", description := "deep dent" }

/-- Findings of one part filtered out of the full list, in input order:
the contents of that part's group. -/
def partFilter (l : List DamageDescription) (q : String) : List DamageDescription :=
  l.filter (fun d => d.part = q)

/-- The per-key scan returns the id of the first key satisfying
`keyMatches` (token overlap ≥ 2, or substring either way). -/
theorem scanPss_eq_find (q : String) :
    ∀ m : List (String × PartInfo),
      scanPss q m = (m.find? (fun p => keyMatches q p.1)).map (fun p => p.2.id)
  | [] => rfl
  | (k, info) :: rest => by
    have ih := scanPss_eq_find q rest
    by_cases h1 : overlapCount k q ≥ 2
    · simp [scanPss, keyMatches, h1]
    · by_cases h2 : (strSub q k || strSub k q) = true
      · simp [scanPss, keyMatches, h1, h2]
      · simp [scanPss, keyMatches, h1, h2, ih]

/-- C8: the Narrative Merger on an empty findings list returns the
fixed, non-empty no-damage sentinel and raises no error; this holds for
the grouping merger of the RAG service and for the inference-delegating
merger of the vehicle-damage service (which returns its sentinel before
any inference call). -/
theorem c8_merge_empty_sentinel :
    (∀ vi : Option VehicleInfo,
      mergeDamageDescriptions [] vi = "No visible damage detected." ∧
      mergeDamageDescriptions [] vi ≠ "") ∧
    (∀ (inferenceText : String) (vi : VehicleInfo),
      mergeDamageDescriptionsService inferenceText vi [] =
        "No visible damage detected on the vehicle." ∧
      mergeDamageDescriptionsService inferenceText vi [] ≠ "") := by
  constructor
  · intro vi
    exact ⟨rfl, show ("No visible damage detected." : String) ≠ "" by decide⟩
  · intro t vi
    exact ⟨rfl, show ("No visible damage detected on the vehicle." : String) ≠ "" by decide⟩

/-- C1 (counterexample): on the two-key index `cexMap` the query
`"front bumper"` has a substring-only relation with the first key and a
2-token overlap with the second; the code returns the first key's id
`"1"`, while the claim's global ordering (all token-overlap tests before
any substring test) would return `"2"`. -/
theorem c1_counterexample :
    matchPartWithPss "front bumper" cexMap = some "1" ∧
    specOrderedMatch "front bumper" cexMap = some "2" ∧
    overlapCount "front bumper cover" (pyStrip (pyLowerStr "front bumper")) ≥ 2 ∧
    overlapCount "xfront bumpery" (pyStrip (pyLowerStr "front bumper")) = 0 := by
  refine ⟨by decide, by decide, by decide, by decide⟩

/-- C1 (amended): the Part Matcher applies the exact-match step first;
otherwise the token-overlap and substring tests are interleaved inside
one pass over the keys in insertion order — the first key satisfying
either test wins, so a substring-only match on an earlier key takes
precedence over a token-overlap match on a later key; otherwise none.
Empty description or empty index short-circuit to none. -/
theorem c1_matchPart_scan_order (d : String) (m : PartsMap) :
    matchPartWithPss d m =
      if d = "" || m.isEmpty then Option.none
      else
        match alookup m (pyStrip (pyLowerStr d)) with
        | some info => some info.id
        | Option.none =>
          (m.find? (fun p => keyMatches (pyStrip (pyLowerStr d)) p.1)).map
            (fun p => p.2.id) := by
  simp only [matchPartWithPss]
  by_cases h : (d = "" || m.isEmpty) = true
  · simp [h]
  · simp only [h, Bool.false_eq_true, if_false]
    cases halook : alookup m (pyStrip (pyLowerStr d)) with
    | some info => simp
    | none => simp [scanPss_eq_find]

/-- C3 (counterexample): a raw `Repair` operation whose inference output
carries no `LaborHours` is post-processed into an operation with
`Operation = "Repair"` and no `labor_hours` — refuting the `iff`
direction "operation = Repair implies labor_hours present". -/
theorem c3_counterexample :
    c3op.Operation = "Repair" ∧ c3op.LaborHours = Option.none ∧
    (generateEstimate
      (.ok [("Front Bumper",
        [{ Description := some "Front Bumper Cover", Operation := some "Repair",
           LaborHours := Option.none, PartId := Option.none }])]) Option.none).estimate =
      [("Front Bumper", [c3op])] :=
  ⟨rfl, rfl, rfl⟩

/-- C3 (amended): after post-processing, `labor_hours` is present ONLY
IF the operation is `"Repair"` (and then it equals the raw value); in
particular a raw `"Remove / Replace"` operation never keeps a
`labor_hours` value, even when the raw inference output included one.
The converse fails: a raw `Repair` without a raw `labor_hours` stays
without one. -/
theorem c3_labor_hours_only_repair :
    (∀ (invokeResult : Except String RawEstimate) (pss_data : Option PyVal)
       (cat : String) (ops : List EstimateOperation) (e : EstimateOperation),
      (cat, ops) ∈ (generateEstimate invokeResult pss_data).estimate →
      e ∈ ops →
      e.LaborHours.isSome →
      e.Operation = "Repair") ∧
    (∀ (m : PartsMap) (cat : String) (op : RawOp),
      op.Operation = some "Remove / Replace" →
      (processOp m cat op).LaborHours = Option.none) := by
  constructor
  · intro invokeResult pss_data cat ops e hmem hops hsome
    match invokeResult with
    | .error err => simp [generateEstimate] at hmem
    | .ok raw =>
      simp only [generateEstimate, List.mem_map] at hmem
      obtain ⟨ce, hce, heq⟩ := hmem
      have hops' : ops = ce.2.map (processOp (extractPssParts pss_data) ce.1) := by
        have := congrArg Prod.snd heq
        simpa using this.symm
      subst hops'
      rw [List.mem_map] at hops
      obtain ⟨rop, hrop, hre⟩ := hops
      subst hre
      by_cases hrep : rop.Operation = some "Repair"
      · simp [processOp, hrep]
      · simp [processOp, hrep] at hsome
  · intro m cat op hop
    simp [processOp, hop]

/-- C3 witness: a `Remove / Replace` raw operation that DID carry raw
labor hours loses them in post-processing, via the amended theorem. -/
theorem c3_witness :
    (processOp [] "Rear Bumper"
      { Description := some "Rear Bumper Cover", Operation := some "Remove / Replace",
        LaborHours := some (3 : ℚ), PartId := Option.none }).LaborHours = Option.none ∧
    (processOp [] "Front Bumper"
      { Description := some "Front Bumper Cover", Operation := some "Repair",
        LaborHours := some (2 : ℚ), PartId := Option.none }).Operation = "Repair" := by
  constructor
  · exact c3_labor_hours_only_repair.2 [] "Rear Bumper" _ rfl
  · exact c3_labor_hours_only_repair.1
      (.ok [("Front Bumper",
        [{ Description := some "Front Bumper Cover", Operation := some "Repair",
           LaborHours := some (2 : ℚ), PartId := Option.none }])])
      Option.none "Front Bumper"
      [processOp [] "Front Bumper"
        { Description := some "Front Bumper Cover", Operation := some "Repair",
          LaborHours := some (2 : ℚ), PartId := Option.none }]
      (processOp [] "Front Bumper"
        { Description := some "Front Bumper Cover", Operation := some "Repair",
          LaborHours := some (2 : ℚ), PartId := Option.none })
      (List.mem_singleton.mpr rfl) (List.mem_singleton.mpr rfl) (by rfl)

/-- C7: when the raw operation carries no usable `PartId` (absent, null
or empty — all normalize to the empty string), post-processing consults
the Part Matcher on the operation's own description first and on the
category name only if that yields none; the finalized `PartId` is always
a `String` (empty when unresolved, never null — the field's type is
`String`). -/
theorem c7_part_id_resolution :
    ∀ (m : PartsMap) (cat : String) (op : RawOp),
      op.PartId.getD "" = "" →
      (processOp m cat op).PartId =
        (match matchPartWithPss (op.Description.getD "") m with
         | some i => i
         | Option.none =>
           match matchPartWithPss cat m with
           | some j => j
           | Option.none => "") := by
  intro m cat op h
  simp only [processOp, h, if_pos rfl]
  cases matchPartWithPss (op.Description.getD "") m <;>
    cases matchPartWithPss cat m <;> simp

/-- C7 witness: with a one-entry index, an operation whose description
exact-matches the entry resolves to that id (description attempted
before the category, which would not match). -/
theorem c7_witness :
    (processOp c7Map "Miscellaneous"
      { Description := some "Front Bumper Cover", Operation := some "Remove / Replace",
        LaborHours := Option.none, PartId := Option.none }).PartId = "id9" := by
  have h := c7_part_id_resolution c7Map "Miscellaneous"
    { Description := some "Front Bumper Cover", Operation := some "Remove / Replace",
      LaborHours := Option.none, PartId := Option.none } rfl
  rw [h]
  decide

/-- C4 (counterexample): `badDoc` contains a malformed first category
and a fully well-formed second category, yet indexing it yields the
empty map — the well-formed part detail elsewhere in the document is NOT
indexed.  The same detail indexes fine when the malformed entry is
absent (`goodDoc`). -/
theorem c4_counterexample :
    extractPssParts (some badDoc) = ([] : PartsMap) ∧
    (alookup (extractPssParts (some goodDoc)) "front bumper").isSome = true := by
  exact ⟨rfl, rfl⟩

/-- C4 (amended): a malformed entry makes the Catalog Indexer stop at
that entry: the exception is caught, the entries indexed before the
malformation are kept and returned without raising, but the traversal
does not continue — categories after the first failing one are never
visited (and symmetrically, while no entry fails the fold proceeds
left-to-right). -/
theorem c4_malformed_entry_aborts :
    ∀ (acc : PartsMap) (l1 l2 : List PyVal),
      ((foldCats acc l1).2 = false → foldCats acc (l1 ++ l2) = foldCats acc l1) ∧
      ((foldCats acc l1).2 = true → foldCats acc (l1 ++ l2) = foldCats (foldCats acc l1).1 l2) := by
  intro acc l1 l2
  induction l1 generalizing acc with
  | nil =>
    refine ⟨fun h => ?_, fun _ => ?_⟩
    · simp [foldCats] at h
    · simp [foldCats]
  | cons c cs ih =>
    rcases hpc : processCategory acc c with ⟨m, b⟩
    cases b with
    | false =>
      refine ⟨fun _ => ?_, fun h => ?_⟩
      · simp [foldCats, hpc]
      · rw [show foldCats acc (c :: cs) = (m, false) by simp [foldCats, hpc]] at h
        simp at h
    | true =>
      have h1 : foldCats acc (c :: cs) = foldCats m cs := by simp [foldCats, hpc]
      have h2 : foldCats acc ((c :: cs) ++ l2) = foldCats m (cs ++ l2) := by
        simp [foldCats, hpc]
      refine ⟨fun h => ?_, fun h => ?_⟩
      · rw [h1] at h ⊢
        rw [h2]
        exact (ih m).1 h
      · rw [h1] at h ⊢
        rw [h2]
        exact (ih m).2 h

/-- C4 witness: on `badDoc`'s category list, the fold across the
malformed first category equals the fold that never sees the good
second category. -/
theorem c4_witness :
    foldCats [] ([PyVal.int 5] ++ [goodCat]) = foldCats [] [PyVal.int 5] :=
  (c4_malformed_entry_aborts [] [PyVal.int 5] [goodCat]).1 rfl

/-- Reading a list by its own index range reproduces the list (used to
relate completion-order collection to the submitted task list). -/
theorem map_getD_range {β : Type} (f : String → β) :
    ∀ l : List String,
      (List.range l.length).map (fun i => f (l.getD i "")) = l.map f
  | [] => rfl
  | a :: t => by
    have ih := map_getD_range f t
    simp only [List.length_cons, List.range_succ_eq_map, List.map_cons,
      List.map_map, Function.comp_def, List.getD_cons_zero, List.getD_cons_succ]
    exact congrArg _ ih

/-- C2: for a non-empty explicit list of image references, the batch
orchestrator succeeds, its detection list has exactly as many entries as
there are references — one worker result per reference, whatever the
completion order `arrival` — and a reference whose fetch or analysis
raises contributes the sentinel result (`side = "unknown"`,
`has_damage = false`, no damages, confidence 0); the batch itself never
fails because a worker failed. -/
theorem c2_batch_exactly_n
    (analyze : String → Except String DamageDetectionResult)
    (listImages : String → Except String (List String))
    (vi : Option VehicleInfo) (urls : List String) (arrival : List Nat)
    (hne : urls ≠ []) (hperm : arrival.Perm (List.range urls.length)) :
    (detectDamageBatch analyze listImages Option.none (some urls) vi arrival).success = true ∧
    (detectDamageBatch analyze listImages Option.none (some urls) vi arrival).detections.length
      = urls.length ∧
    (detectDamageBatch analyze listImages Option.none (some urls) vi arrival).detections.Perm
      (urls.map (detectDamageWorker analyze)) ∧
    (∀ url e, analyze url = .error e →
      detectDamageWorker analyze url = sentinelResult url) ∧
    (∀ url, (sentinelResult url).side = "unknown" ∧
      (sentinelResult url).has_damage = false ∧
      (sentinelResult url).damages = [] ∧
      (sentinelResult url).confidence = 0) := by
  have hie : urls.isEmpty = false := by
    cases urls with
    | nil => exact absurd rfl hne
    | cons a t => rfl
  have hbatch : detectDamageBatch analyze listImages Option.none (some urls) vi arrival
      = batchRun analyze vi urls arrival := by
    simp [detectDamageBatch, truthyOptList, hie]
  have hperm' :
      (arrival.map (fun i => detectDamageWorker analyze (urls.getD i ""))).Perm
        (urls.map (detectDamageWorker analyze)) := by
    have h1 := hperm.map (fun i => detectDamageWorker analyze (urls.getD i ""))
    rw [map_getD_range] at h1
    exact h1
  have hdet : (batchRun analyze vi urls arrival).detections
      = arrival.map (fun i => detectDamageWorker analyze (urls.getD i "")) := by
    simp [batchRun, hie]
  have hsucc : (batchRun analyze vi urls arrival).success = true := by
    simp [batchRun, hie]
  rw [hbatch, hdet]
  refine ⟨hsucc, ?_, hperm', fun url e h => by simp [detectDamageWorker, h],
    fun url => ⟨rfl, rfl, rfl, rfl⟩⟩
  exact hperm'.length_eq.trans (List.length_map _ _)

/-- C2 witness: two references, an always-failing analyzer, reversed
completion order — the batch still succeeds with two detections. -/
theorem c2_witness :
    (detectDamageBatch c2Analyze c2List Option.none (some ["a", "b"]) Option.none [1, 0]).success
      = true ∧
    (detectDamageBatch c2Analyze c2List Option.none (some ["a", "b"]) Option.none [1, 0]).detections.length
      = 2 := by
  have h := c2_batch_exactly_n c2Analyze c2List Option.none ["a", "b"] [1, 0]
    (by decide) (by decide)
  exact ⟨h.1, h.2.1⟩

/-- C6: the batch half of the claim holds — a bucket listing resolved
to an empty image list fails hard with "No images found".  The pipeline
half names an error the program never produces: every
`run_rag_pipeline` call fails first on the `request.pss_data` read
(`AttributeError`, caught into the failure response), so the
"No damage description provided for retrieval" branch is dead code.
The third conjunct shows that dead branch is exactly the code that
would produce the claimed error for an empty query, were the read
fixed. -/
theorem c6_empty_input_hard_failure :
    (∀ (analyze : String → Except String DamageDetectionResult)
       (listImages : String → Except String (List String))
       (image_urls : Option (List String)) (bucket : String)
       (vi : Option VehicleInfo) (arrival : List Nat),
      truthyOptList image_urls = false →
      bucket ≠ "" →
      listImages bucket = .ok [] →
      (detectDamageBatch analyze listImages (some bucket) image_urls vi arrival).success
        = false ∧
      (detectDamageBatch analyze listImages (some bucket) image_urls vi arrival).error
        = some "No images found") ∧
    (∀ (retrieve : String → List RetrievedChunk)
       (invokeEstimate : List RetrievedChunk → Except String RawEstimate)
       (req : RAGEstimateRequest),
      (runRagPipeline retrieve invokeEstimate req).success = false ∧
      (runRagPipeline retrieve invokeEstimate req).error
        = some pssDataAttributeError) ∧
    (∀ (pss : Option PyVal) (retrieve : String → List RetrievedChunk)
       (invokeEstimate : List RetrievedChunk → Except String RawEstimate)
       (req : RAGEstimateRequest),
      (req.merged_damage_description = Option.none ∨
        req.merged_damage_description = some "") →
      req.damage_descriptions.getD [] = [] →
      (runRagPipelineAfterPssRead pss retrieve invokeEstimate req).success = false ∧
      (runRagPipelineAfterPssRead pss retrieve invokeEstimate req).error
        = some "No damage description provided for retrieval") := by
  refine ⟨?_, ?_, ?_⟩
  · intro analyze listImages image_urls bucket vi arrival himg hb hlist
    have hbt : truthyOptStr (some bucket) = true := by
      simp [truthyOptStr, hb]
    simp [detectDamageBatch, himg, hbt, hlist, batchRun]
  · intro retrieve invokeEstimate req
    exact ⟨rfl, rfl⟩
  · intro pss retrieve invokeEstimate req hmdd hdd
    have hq : truthyOptStr req.merged_damage_description = false := by
      rcases hmdd with h | h <;> simp [truthyOptStr, h]
    simp [runRagPipelineAfterPssRead, hq, hdd]

/-- C6 witness: a bucket that lists no images; the concrete empty
request fails with the AttributeError message on the real pipeline and
would fail with the claimed message in the dead branch. -/
theorem c6_witness :
    (detectDamageBatch c6Analyze c6List (some "s3://bucket/claims/") Option.none Option.none []).error
      = some "No images found" ∧
    (runRagPipeline c6Retrieve c6Invoke c6Req).error = some pssDataAttributeError ∧
    (runRagPipelineAfterPssRead Option.none c6Retrieve c6Invoke c6Req).error
      = some "No damage description provided for retrieval" := by
  refine ⟨?_, ?_, ?_⟩
  · exact (c6_empty_input_hard_failure.1 c6Analyze c6List Option.none "s3://bucket/claims/"
      Option.none [] rfl (by decide) rfl).2
  · exact (c6_empty_input_hard_failure.2.1 c6Retrieve c6Invoke c6Req).2
  · exact (c6_empty_input_hard_failure.2.2 Option.none c6Retrieve c6Invoke c6Req
      (Or.inl rfl) rfl).2

/-- C10: the claim's hypothesis is unsatisfiable in the program —
`run_rag_pipeline` never returns `success = true`, because its first
try-block statement reads the undeclared `request.pss_data` attribute
and the raised `AttributeError` is caught into the failure response
(first conjunct).  The success branch the claim describes is dead code;
the second conjunct shows that branch, in isolation, does report
`images_analyzed` and `images_with_damage` as the length of
`request.images` (0 when absent) with an empty `damage_detections`
list, as the claim states. -/
theorem c10_success_unreachable :
    (∀ (retrieve : String → List RetrievedChunk)
       (invokeEstimate : List RetrievedChunk → Except String RawEstimate)
       (req : RAGEstimateRequest),
      (runRagPipeline retrieve invokeEstimate req).success = false ∧
      (runRagPipeline retrieve invokeEstimate req).error
        = some pssDataAttributeError) ∧
    (∀ (pss : Option PyVal) (retrieve : String → List RetrievedChunk)
       (invokeEstimate : List RetrievedChunk → Except String RawEstimate)
       (req : RAGEstimateRequest),
      (runRagPipelineAfterPssRead pss retrieve invokeEstimate req).success = true →
      (runRagPipelineAfterPssRead pss retrieve invokeEstimate req).images_analyzed
        = (req.images.getD []).length ∧
      (runRagPipelineAfterPssRead pss retrieve invokeEstimate req).images_with_damage
        = (req.images.getD []).length ∧
      (runRagPipelineAfterPssRead pss retrieve invokeEstimate req).damage_detections = []) := by
  constructor
  · intro retrieve invokeEstimate req
    exact ⟨rfl, rfl⟩
  · intro pss retrieve invokeEstimate req h
    simp only [runRagPipelineAfterPssRead] at h ⊢
    cases hb : truthyOptStr
        (if ¬ truthyOptStr req.merged_damage_description = true ∧
            ¬ (req.damage_descriptions.getD []).isEmpty = true then
          some (mergeDamageDescriptions (req.damage_descriptions.getD []) req.vehicle_info)
        else req.merged_damage_description) with
    | false =>
      rw [hb] at h
      simp at h
    | true =>
      simp

/-- C10 witness: a concrete request with two image references and a
merged description — the real pipeline fails with the AttributeError
message; the dead success branch reports both image counts as 2 and no
per-image detections. -/
theorem c10_witness :
    (runRagPipeline c10Retrieve c10Invoke c10Req).error = some pssDataAttributeError ∧
    (runRagPipelineAfterPssRead Option.none c10Retrieve c10Invoke c10Req).images_analyzed = 2 ∧
    (runRagPipelineAfterPssRead Option.none c10Retrieve c10Invoke c10Req).images_with_damage = 2 ∧
    (runRagPipelineAfterPssRead Option.none c10Retrieve c10Invoke c10Req).damage_detections = [] := by
  refine ⟨(c10_success_unreachable.1 c10Retrieve c10Invoke c10Req).2, ?_⟩
  exact c10_success_unreachable.2 Option.none c10Retrieve c10Invoke c10Req rfl

/-- Lookup through an appended association list: the left part wins. -/
theorem alookup_append {α : Type} (m1 m2 : List (String × α)) (q : String) :
    alookup (m1 ++ m2) q =
      match alookup m1 q with
      | some v => some v
      | Option.none => alookup m2 q := by
  induction m1 with
  | nil => simp [alookup]
  | cons p t ih =>
    obtain ⟨k, v⟩ := p
    by_cases hk : k = q
    · simp [alookup, hk]
    · simp [alookup, hk, ih]

/-- Lookup through the in-place group update of `dictPush` (append `d`
to every entry keyed `k`). -/
theorem alookup_pushmap (m : List (String × List DamageDescription)) (k : String)
    (d : DamageDescription) (q : String) :
    alookup (m.map (fun p => if p.1 = k then (p.1, p.2 ++ [d]) else p)) q =
      if q = k then (alookup m q).map (fun g => g ++ [d]) else alookup m q := by
  induction m with
  | nil => by_cases hq : q = k <;> simp [alookup, hq]
  | cons p t ih =>
    obtain ⟨k0, g0⟩ := p
    simp only [List.map_cons]
    by_cases hk0 : k0 = k
    · subst hk0
      rw [if_pos rfl]
      by_cases hq : k0 = q
      · subst hq
        simp [alookup]
      · have hq' : ¬ (q = k0) := fun h => hq h.symm
        simp [alookup, hq, hq', ih]
    · rw [if_neg hk0]
      by_cases hq : k0 = q
      · subst hq
        simp [alookup, hk0]
      · simp [alookup, hk0, hq, ih]

/-- Lookup after one `dictPush`: the pushed key's group gains `d` at the
end, every other key is untouched. -/
theorem alookup_dictPush (m : List (String × List DamageDescription)) (k : String)
    (d : DamageDescription) (q : String) :
    alookup (dictPush m k d) q =
      if q = k then some ((alookup m k).getD [] ++ [d]) else alookup m q := by
  by_cases hs : (alookup m k).isSome = true
  · obtain ⟨g, hg⟩ := Option.isSome_iff_exists.mp hs
    rw [show dictPush m k d = m.map (fun p => if p.1 = k then (p.1, p.2 ++ [d]) else p) from by
      simp [dictPush, hg]]
    rw [alookup_pushmap]
    by_cases hq : q = k
    · subst hq
      rw [hg]
      simp
    · simp [hq]
  · have hnone : alookup m k = Option.none := by
      cases h : alookup m k with
      | some g => rw [h] at hs; simp at hs
      | none => rfl
    rw [show dictPush m k d = m ++ [(k, [d])] from by simp [dictPush, hnone]]
    rw [alookup_append]
    by_cases hq : q = k
    · subst hq
      rw [hnone]
      simp [alookup]
    · have hq' : ¬ (k = q) := fun h => hq h.symm
      cases halo : alookup m q <;> simp [alookup, hq, hq', halo]

/-- The grouping fold of the Narrative Merger, characterized: after
folding `l` on top of `m`, a key's group is its old group extended by
the findings of `l` on that part, in input order. -/
theorem foldl_push_alookup (q : String) :
    ∀ (l : List DamageDescription) (m : List (String × List DamageDescription)),
      alookup (l.foldl (fun acc d => dictPush acc d.part d) m) q =
        match alookup m q with
        | some g => some (g ++ partFilter l q)
        | Option.none =>
          if partFilter l q = [] then Option.none else some (partFilter l q)
  | [], m => by
    cases h : alookup m q <;> simp [partFilter, h]
  | d :: t, m => by
    have ih := foldl_push_alookup q t (dictPush m d.part d)
    simp only [List.foldl_cons]
    rw [ih, alookup_dictPush]
    by_cases hq : q = d.part
    · subst hq
      have hfil : partFilter (d :: t) d.part = d :: partFilter t d.part := by
        simp [partFilter, List.filter_cons]
      cases halo : alookup m d.part with
      | some g => simp [halo, hfil]
      | none => simp [halo, hfil]
    · have hpq : ¬ (d.part = q) := fun h => hq h.symm
      have hfil : partFilter (d :: t) q = partFilter t q := by
        simp [partFilter, List.filter_cons, hpq]
      simp [hq, hfil]

/-- A part's group inside `damagesByPart` is exactly the sublist of
findings on that part, in input order (or absent when there are none). -/
theorem damagesByPart_alookup (l : List DamageDescription) (q : String) :
    alookup (damagesByPart l) q =
      if partFilter l q = [] then Option.none else some (partFilter l q) := by
  have h := foldl_push_alookup q l []
  simpa [damagesByPart, alookup] using h

/-- C5: for two finding lists that are permutations of each other, every
part's group in the Narrative Merger's grouping has the same worst
severity (Major > Medium > Minor) and the same set of distinct damage
types; the merger itself is a pure function, hence deterministic on
equal inputs.  (Proved for all permutations — in particular those
preserving the per-part order of first occurrence, as the claim
stipulates.) -/
theorem c5_merge_group_contents (l1 l2 : List DamageDescription) (hperm : l1.Perm l2) :
    ∀ q : String,
      ((alookup (damagesByPart l1) q).map groupSeverity =
        (alookup (damagesByPart l2) q).map groupSeverity) ∧
      (∀ t : String,
        (∃ g, alookup (damagesByPart l1) q = some g ∧ t ∈ groupTypes g) ↔
        (∃ g, alookup (damagesByPart l2) q = some g ∧ t ∈ groupTypes g)) := by
  intro q
  have hf : (partFilter l1 q).Perm (partFilter l2 q) := hperm.filter _
  have hsev : groupSeverity (partFilter l1 q) = groupSeverity (partFilter l2 q) := by
    have hm := hf.map (fun d => d.severity)
    simp [groupSeverity, maxSeverity, hm.mem_iff]
  have hiff : partFilter l1 q = [] ↔ partFilter l2 q = [] := by
    constructor
    · intro h
      rw [h] at hf
      exact hf.nil_eq.symm
    · intro h
      rw [h] at hf
      exact (hf.symm.nil_eq).symm
  rw [damagesByPart_alookup, damagesByPart_alookup]
  by_cases he : partFilter l1 q = []
  · have he2 : partFilter l2 q = [] := hiff.mp he
    simp [he, he2]
  · have he2 : ¬ (partFilter l2 q = []) := fun h => he (hiff.mpr h)
    simp only [he, he2, if_false]
    refine ⟨by simp [hsev], ?_⟩
    intro t
    have hmt := hf.map (fun d => d.type)
    simp [groupTypes, List.mem_dedup, hmt.mem_iff, hf.mem_iff]

/-- C5 witness: swapping a Minor/Scratch and a Major/Dent finding on the
same part leaves the part's worst severity unchanged. -/
theorem c5_witness :
    (alookup (damagesByPart [c5d1, c5d2]) "Bumper").map groupSeverity =
      (alookup (damagesByPart [c5d2, c5d1]) "Bumper").map groupSeverity :=
  ((c5_merge_group_contents [c5d1, c5d2] [c5d2, c5d1]
    (List.Perm.swap c5d2 c5d1 [])) "Bumper").1
